import Mathlib

set_option linter.unusedVariables false

/-!
Shallow embedding of cuprate's I2P network-zone layer:
the `GarlicAddr` address type with its display / parse / epee-encoding
operations (`net/wire/src/network_address/garlic_addr.rs`), the
`NetZoneAddress` and `NetworkZone` implementations for I2P
(`p2p/p2p-core/src/network_zones/i2p.rs`), the stub I2P transport
(`p2p/p2p-transport/src/i2p.rs`), the cross-network peer-id union
(`binaries/cuprated/src/p2p/network_address.rs`) and the zone
orchestration (`binaries/cuprated/src/p2p.rs`).

Machine integers are modelled as `Nat` with explicit reduction `% 2 ^ w`
where overflow matters; Rust strings are modelled as `List Char`;
byte arrays as `List Nat` with entries below 256 by construction;
fallible operations return `Except`.
-/

namespace Cuprate

/-! ### 64-bit helpers and Rust's `DefaultHasher`

`GarlicAddr::from_str` builds the stored destination from
`std::collections::hash_map::DefaultHasher`, which is SipHash-1-3 keyed
with two zero keys.  The source hashes the destination text into a
*clone* of the hasher and then calls `finish` on the original, untouched
hasher, so the value that reaches the address is the finish of an empty
SipHash-1-3 state.  We embed exactly that finish computation. -/

/-- Reduce a natural number to 64 bits, as Rust `u64` arithmetic does. -/
def w64 (n : Nat) : Nat := n % 2 ^ 64

/-- Rotate a 64-bit value left by `r` bits. -/
def rotl64 (x r : Nat) : Nat := w64 (x <<< r) ||| (x >>> (64 - r))

/-- One SipHash round on the four-word state, every addition reduced to
64 bits. -/
def sipRound : Nat × Nat × Nat × Nat → Nat × Nat × Nat × Nat :=
  fun (v0, v1, v2, v3) =>
    let v0 := w64 (v0 + v1)
    let v1 := rotl64 v1 13
    let v1 := v1 ^^^ v0
    let v0 := rotl64 v0 32
    let v2 := w64 (v2 + v3)
    let v3 := rotl64 v3 16
    let v3 := v3 ^^^ v2
    let v0 := w64 (v0 + v3)
    let v3 := rotl64 v3 21
    let v3 := v3 ^^^ v0
    let v2 := w64 (v2 + v1)
    let v1 := rotl64 v1 17
    let v1 := v1 ^^^ v2
    let v2 := rotl64 v2 32
    (v0, v1, v2, v3)

/-- Iterate `sipRound`. -/
def sipRounds : Nat → Nat × Nat × Nat × Nat → Nat × Nat × Nat × Nat
  | 0, s => s
  | n + 1, s => sipRounds n (sipRound s)

/-- Finish of `DefaultHasher::new()` with nothing written: SipHash-1-3
with keys `(0, 0)` on the empty byte string.  The length block `b` is
`0 <<< 56 = 0`; one compression round, then the finalization xor with
`0xff` and three more rounds. -/
def defaultHasherEmptyFinish : Nat :=
  let v0 := 0x736f6d6570736575
  let v1 := 0x646f72616e646f6d
  let v2 := 0x6c7967656e657261
  let v3 := 0x7465646279746573
  let b := 0
  let s := sipRounds 1 (v0, v1, v2, v3 ^^^ b)
  let s := (s.1 ^^^ b, s.2.1, s.2.2.1 ^^^ 0xff, s.2.2.2)
  let s := sipRounds 3 s
  s.1 ^^^ s.2.1 ^^^ s.2.2.1 ^^^ s.2.2.2

/-- Little-endian byte decomposition of a `u64`, as `u64::to_le_bytes`. -/
def leBytes8 (v : Nat) : List Nat :=
  (List.range 8).map fun i => (v >>> (8 * i)) % 256

/-! ### The `GarlicAddr` address type -/

/-- An I2P garlic address: a 32-byte destination digest and a virtual
port (`GarlicAddr` in `garlic_addr.rs`).  The destination is a
`List Nat` of length 32 with entries below 256 by construction; the port
is below `2 ^ 16` wherever the source's `u16` type guarantees it. -/
structure GarlicAddr where
  destination : List Nat
  port : Nat
deriving DecidableEq, Repr

/-! ### base64 (the `base64` crate's standard alphabet with padding) -/

/-- Character `n` of the standard base64 alphabet. -/
def b64Char (n : Nat) : Char :=
  if n < 26 then Char.ofNat (65 + n)
  else if n < 52 then Char.ofNat (97 + (n - 26))
  else if n < 62 then Char.ofNat (48 + (n - 52))
  else if n = 62 then '+'
  else '/'

/-- Standard base64 encoding with `=` padding of a byte list
(`base64::encode`). -/
def base64Encode : List Nat → List Char
  | [] => []
  | [b0] =>
      [b64Char (b0 >>> 2), b64Char ((b0 % 4) <<< 4), '=', '=']
  | [b0, b1] =>
      [b64Char (b0 >>> 2), b64Char (((b0 % 4) <<< 4) ||| (b1 >>> 4)),
       b64Char ((b1 % 16) <<< 2), '=']
  | b0 :: b1 :: b2 :: rest =>
      b64Char (b0 >>> 2) :: b64Char (((b0 % 4) <<< 4) ||| (b1 >>> 4)) ::
      b64Char (((b1 % 16) <<< 2) ||| (b2 >>> 6)) :: b64Char (b2 % 64) ::
      base64Encode rest

/-! ### Decimal rendering and `u16` parsing -/

/-- The ASCII digit for `d < 10` (`d = 9` also absorbs out-of-range
arguments, which never occur). -/
def decChar : Nat → Char
  | 0 => '0' | 1 => '1' | 2 => '2' | 3 => '3' | 4 => '4'
  | 5 => '5' | 6 => '6' | 7 => '7' | 8 => '8' | _ => '9'

/-- Decimal digits of a natural number, most significant first — the
recursive specification used in proofs. -/
def decimalDigits (n : Nat) : List Char :=
  if n < 10 then [decChar n]
  else decimalDigits (n / 10) ++ [decChar (n % 10)]
termination_by n
decreasing_by
  have : n / 10 < n := Nat.div_lt_self (by omega) (by omega)
  omega

/-- Fuelled digit accumulator; the fuel only bounds the recursion depth
so the definition reduces inside the kernel. -/
def natToDigitsAux : Nat → Nat → List Char → List Char
  | 0, _, acc => acc
  | fuel + 1, n, acc =>
      if n < 10 then decChar n :: acc
      else natToDigitsAux fuel (n / 10) (decChar (n % 10) :: acc)

/-- Decimal digits of a natural number, most significant first, as
Rust's `Display for u16` prints them. -/
def natToDigits (n : Nat) : List Char :=
  natToDigitsAux (n + 1) n []

/-- Numeric value of a digit string, most significant first. -/
def decValue (cs : List Char) : Nat :=
  cs.foldl (fun acc c => acc * 10 + (c.toNat - 48)) 0

/-- Rust's `u16::from_str`: an optional leading `+`, then a nonempty
run of ASCII digits whose value fits in 16 bits; anything else is an
error.  (A leading `-` is not treated as a sign for unsigned types and
fails as an invalid digit.) -/
def parseU16 (s : List Char) : Option Nat :=
  let ds := match s with
    | '+' :: rest => rest
    | other => other
  if ds.isEmpty then none
  else if ds.all Char.isDigit then
    let v := decValue ds
    if v < 65536 then some v else none
  else none

/-! ### Display and FromStr for `GarlicAddr` -/

/-- Display form of a garlic address
(`impl Display for GarlicAddr`): base64 of the first 8 destination
bytes, `...`, base64 of the last 8 bytes, `:`, decimal port. -/
def GarlicAddr.display (a : GarlicAddr) : List Char :=
  base64Encode (a.destination.take 8) ++ ['.', '.', '.'] ++
  base64Encode (a.destination.drop 24) ++ [':'] ++ natToDigits a.port

/-- Rust `rsplitn(2, ':')` with both pieces present: split a string at
its *last* colon into `(text before, text after)`; `none` when the
string has no colon. -/
def splitLastColon : List Char → Option (List Char × List Char)
  | [] => none
  | c :: rest =>
    match splitLastColon rest with
    | some (pre, post) => some (c :: pre, post)
    | none => if c = ':' then some ([], rest) else none

/-- Error kinds of the `std::io::Error` values this layer constructs. -/
inductive IoErrorKind where
  | InvalidInput
  | NotConnected
deriving DecidableEq, Repr

/-- A `std::io::Error`: a kind and a message. -/
structure IoErr where
  kind : IoErrorKind
  msg : String
deriving DecidableEq, Repr

/-- Destination bytes produced by `GarlicAddr::from_str` for a given
destination text.  The source hashes `dest_str` into a `clone()` of the
hasher and discards the clone, so `finish` sees the untouched empty
hasher: the first 8 bytes are the little-endian bytes of
`defaultHasherEmptyFinish` and the remaining 24 bytes stay zero,
whatever the text was. -/
def fromStrDestination ( dest_str : List Char) : List Nat :=
  leBytes8 defaultHasherEmptyFinish ++ List.replicate 24 0

/-- The fixed destination value every successful `from_str` stores. -/
def fromStrFixedDestination : List Nat :=
  leBytes8 defaultHasherEmptyFinish ++ List.replicate 24 0

instance {ε α : Type} [DecidableEq ε] [DecidableEq α] : DecidableEq (Except ε α) :=
  fun x y =>
    match x, y with
    | .ok a, .ok b =>
        if h : a = b then isTrue (by rw [h]) else isFalse (by simp [h])
    | .error a, .error b =>
        if h : a = b then isTrue (by rw [h]) else isFalse (by simp [h])
    | .ok _, .error _ => isFalse (by simp)
    | .error _, .ok _ => isFalse (by simp)

/-- Parse of a garlic address string
(`impl FromStr for GarlicAddr`): split at the last colon, parse the
suffix as a `u16` port, and derive the stored destination with
`fromStrDestination`. -/
def GarlicAddr.fromStr (s : List Char) : Except IoErr GarlicAddr :=
  match splitLastColon s with
  | none =>
      Except.error ⟨IoErrorKind.InvalidInput, "Invalid garlic address format"⟩
  | some (dest_str, port_str) =>
    match parseU16 port_str with
    | none => Except.error ⟨IoErrorKind.InvalidInput, "Invalid port"⟩
    | some p => Except.ok ⟨fromStrDestination dest_str, p⟩

/-! ### `NetZoneAddress` implementation for `GarlicAddr`
(`p2p/p2p-core/src/network_zones/i2p.rs`) -/

/-- Mutation of the virtual port (`set_port` in `impl NetZoneAddress for
GarlicAddr`); modelled as explicit state passing. -/
def GarlicAddr.set_port (a : GarlicAddr) (p : Nat) : GarlicAddr :=
  { a with port := p }

/-- Ban key of a garlic address (`ban_id`): the destination digest. -/
def GarlicAddr.ban_id (a : GarlicAddr) : List Nat :=
  a.destination

/-- Canonicalization (`make_canonical`): a no-op for I2P, the digest is
already canonical. -/
def GarlicAddr.make_canonical (a : GarlicAddr) : GarlicAddr :=
  a

/-- Peer-list admission (`should_add_to_peer_list`): always true for
I2P. -/
def GarlicAddr.should_add_to_peer_list (a : GarlicAddr) : Bool :=
  true

/-! ### `NetworkZone` policy constants -/

/-- The three compile-time policy constants a `NetworkZone`
implementation binds. -/
structure NetworkZonePolicy where
  NAME : String
  CHECK_NODE_ID : Bool
  BROADCAST_OWN_ADDR : Bool
deriving DecidableEq, Repr

/-- Policy constants of `impl NetworkZone for I2p`
(`network_zones/i2p.rs`). -/
def I2pZonePolicy : NetworkZonePolicy :=
  { NAME := "I2p", CHECK_NODE_ID := false, BROADCAST_OWN_ADDR := true }

/-! ### epee binary-object encoding of `GarlicAddr`
(`garlic_addr.rs`, `EpeeObjectBuilder` and `EpeeObject` impls) -/

/-- Errors of the epee encoding layer this file needs. -/
inductive EpeeError where
  | Format : String → EpeeError
deriving DecidableEq, Repr

/-- Typed epee field values this encoder writes. -/
inductive EpeeValue where
  | byteSeq : List Nat → EpeeValue
  | u16 : Nat → EpeeValue
deriving DecidableEq, Repr

/-- The builder state for decoding a `GarlicAddr`: the source implements
`EpeeObjectBuilder<GarlicAddr>` for the unit type `()`. -/
def GarlicBuilder : Type := Unit

/-- `add_field` of the garlic builder: rejects every field of every
epee-object type with a format error. -/
def GarlicBuilder.add_field (T : Type) (b : GarlicBuilder) (name : String)
    (t : T) : Except EpeeError GarlicBuilder :=
  Except.error (EpeeError.Format "Garlic address builder not implemented")

/-- `finish` of the garlic builder: always a format error, never an
address. -/
def GarlicBuilder.finish (b : GarlicBuilder) : Except EpeeError GarlicAddr :=
  Except.error (EpeeError.Format "Garlic address builder not implemented")

/-- `number_of_fields` of `impl EpeeObject for GarlicAddr`. -/
def GarlicAddr.number_of_fields (a : GarlicAddr) : Nat :=
  2

/-- `write_fields` of `impl EpeeObject for GarlicAddr`: the written
output is modelled as the ordered list of (name, typed value) pairs the
two `write_field` calls append — `destination` as a byte sequence, then
`port` as a `u16`. -/
def GarlicAddr.write_fields (a : GarlicAddr) :
    Except EpeeError (List (String × EpeeValue)) :=
  Except.ok [("destination", EpeeValue.byteSeq a.destination),
             ("port", EpeeValue.u16 a.port)]

/-! ### The stub I2P transport (`p2p/p2p-transport/src/i2p.rs`) -/

/-- Client configuration of the I2P transport (`I2pClientConfig`);
`Duration` fields are modelled as `Nat` milliseconds. -/
structure I2pClientConfig where
  router_address : String
  connect_timeout : Nat
  lease_duration : Nat
deriving DecidableEq, Repr

/-- Server configuration of the I2P transport (`I2pServerConfig`). -/
structure I2pServerConfig where
  destination : Option GarlicAddr
  private_key : Option (List Nat)
  tunnel_count : Nat
  tunnel_length : Nat
deriving DecidableEq, Repr

/-- Placeholder I2P stream (`I2pStream`), an empty shell. -/
structure I2pStream where
  inner : Unit
deriving DecidableEq, Repr

/-- Placeholder I2P sink (`I2pSink`), an empty shell. -/
structure I2pSink where
  inner : Unit
deriving DecidableEq, Repr

/-- Placeholder I2P listener (`I2pListener`), an empty shell. -/
structure I2pListener where
  inner : Unit
deriving DecidableEq, Repr

/-- The error message both stub transport operations return. -/
def i2pNotImplementedMsg : String :=
  "I2P transport not yet implemented - needs actual I2P client library integration"

/-- `I2pTransport::connect_to_peer`: logs and immediately returns a
`NotConnected` error for every address and client configuration. -/
def I2pTransport.connect_to_peer (addr : GarlicAddr)
    (config : I2pClientConfig) : Except IoErr (I2pStream × I2pSink) :=
  Except.error ⟨IoErrorKind.NotConnected, i2pNotImplementedMsg⟩

/-- `I2pTransport::incoming_connection_listener`: logs and immediately
returns a `NotConnected` error for every server configuration. -/
def I2pTransport.incoming_connection_listener (config : I2pServerConfig) :
    Except IoErr I2pListener :=
  Except.error ⟨IoErrorKind.NotConnected, i2pNotImplementedMsg⟩

/-! ### Cross-network peer ids
(`binaries/cuprated/src/p2p/network_address.rs`).

`SocketAddr`, `OnionAddr` and `InternalPeerID` live outside this
repository's sources; they are modelled from the spec. -/

/-- Modelled from the spec: a clearnet address is an IP plus a port
(`SocketAddr`); the concrete type is external to this repository. -/
structure SocketAddr where
  ip : List Nat
  port : Nat
deriving DecidableEq, Repr

/-- Modelled from the spec: a Tor address is an onion service identifier
plus a port (`OnionAddr`); the concrete type is external to this
repository. -/
structure OnionAddr where
  onion : List Nat
  port : Nat
deriving DecidableEq, Repr

/-- Modelled from the spec: `InternalPeerID<Addr>` is a process-local
identifier for one connected peer within one zone — either a known
address or an opaque local number for peers without one. -/
structure InternalPeerID (Addr : Type) where
  known_addr : Option Addr
  local_id : Nat
deriving DecidableEq, Repr

/-- The zone-tagged union of per-zone internal peer ids
(`CrossNetworkInternalPeerId` in `network_address.rs`). -/
inductive CrossNetworkInternalPeerId where
  | ClearNet : InternalPeerID SocketAddr → CrossNetworkInternalPeerId
  | Tor : InternalPeerID OnionAddr → CrossNetworkInternalPeerId
  | I2p : InternalPeerID GarlicAddr → CrossNetworkInternalPeerId
deriving DecidableEq, Repr

/-- `impl From<InternalPeerID<SocketAddr>> for CrossNetworkInternalPeerId`. -/
def crossIdFromClearNet (a : InternalPeerID SocketAddr) :
    CrossNetworkInternalPeerId :=
  CrossNetworkInternalPeerId.ClearNet a

/-- `impl From<InternalPeerID<OnionAddr>> for CrossNetworkInternalPeerId`. -/
def crossIdFromTor (a : InternalPeerID OnionAddr) :
    CrossNetworkInternalPeerId :=
  CrossNetworkInternalPeerId.Tor a

/-- `impl From<InternalPeerID<GarlicAddr>> for CrossNetworkInternalPeerId`. -/
def crossIdFromI2p (a : InternalPeerID GarlicAddr) :
    CrossNetworkInternalPeerId :=
  CrossNetworkInternalPeerId.I2p a

/-! ### Zone orchestration (`binaries/cuprated/src/p2p.rs`)

`start_zone_p2p` delegates to the external `initialize_network` routine,
so the outcome of each zone's startup is passed to the model as an
input.  `CI` and `II` stand for the clearnet and I2P
`NetworkInterface`s, `TX` for the `oneshot::Sender<IncomingTxHandler>`;
all three are opaque to the orchestration. -/

/-- Outcome of one `start_zone_p2p` call: the interface and tx-handler
sender on success, the boxed error's message on failure. -/
inductive ZoneStartResult (A : Type) where
  | success : A → ZoneStartResult A
  | failure : String → ZoneStartResult A
deriving DecidableEq, Repr

/-- The `NetworkInterfaces` collection: a mandatory clearnet interface
and an optional I2P interface. -/
structure NetworkInterfaces (CI II : Type) where
  clearnet_network_interface : CI
  i2p_network_interface : Option II
deriving DecidableEq, Repr

/-- How a call to `initialize_zones_p2p` ends: either the `.unwrap()` on
the clearnet startup panics, or the function returns its pair of the
interface collection and the tx-handler subscriber list. -/
inductive ZonesP2pOutcome (CI II TX : Type) where
  | panicked : String → ZonesP2pOutcome CI II TX
  | returned : NetworkInterfaces CI II → List TX → ZonesP2pOutcome CI II TX
deriving DecidableEq, Repr

/-- `initialize_zones_p2p`: start clearnet first and `.unwrap()` the
result (a failure panics); then, only when I2P is enabled in the
configuration, attempt the I2P zone — on success push its interface and
tx-handler sender, on failure log, discard, and continue with `none`. -/
def initialize_zones_p2p {CI II TX : Type} (i2p_enable : Bool)
    (clearnetStart : ZoneStartResult (CI × TX))
    (i2pStart : ZoneStartResult (II × TX)) : ZonesP2pOutcome CI II TX :=
  match clearnetStart with
  | ZoneStartResult.failure e => ZonesP2pOutcome.panicked e
  | ZoneStartResult.success (clearnet, incoming_tx_handler_tx) =>
    let tx_handler_subscribers := [incoming_tx_handler_tx]
    let (i2p_interface, tx_handler_subscribers) :=
      if i2p_enable then
        match i2pStart with
        | ZoneStartResult.success (i2p, i2p_tx_handler) =>
            (some i2p, tx_handler_subscribers ++ [i2p_tx_handler])
        | ZoneStartResult.failure _ =>
            (none, tx_handler_subscribers)
      else
        (none, tx_handler_subscribers)
    ZonesP2pOutcome.returned ⟨clearnet, i2p_interface⟩ tx_handler_subscribers

/-! ### Helper lemmas about the display / parse pair -/

theorem splitLastColon_eq_none {ys : List Char} (h : ':' ∉ ys) :
    splitLastColon ys = none := by
  induction ys with
  | nil => rfl
  | cons c rest ih =>
      have hc : ¬ c = ':' := by
        intro hc; exact h (hc ▸ List.mem_cons_self c rest)
      have hr : ':' ∉ rest := fun hm => h (List.mem_cons_of_mem _ hm)
      simp [splitLastColon, ih hr, hc]

theorem splitLastColon_append (xs ys : List Char) (h : ':' ∉ ys) :
    splitLastColon (xs ++ ':' :: ys) = some (xs, ys) := by
  induction xs with
  | nil => simp [splitLastColon, splitLastColon_eq_none h]
  | cons c rest ih => simp [splitLastColon, ih]

theorem decChar_isDigit (d : Nat) (h : d < 10) : (decChar d).isDigit = true := by
  interval_cases d <;> decide

theorem decChar_toNat (d : Nat) (h : d < 10) : (decChar d).toNat - 48 = d := by
  interval_cases d <;> decide

theorem natToDigitsAux_eq (fuel : Nat) :
    ∀ n acc, n < fuel → natToDigitsAux fuel n acc = decimalDigits n ++ acc := by
  induction fuel with
  | zero => intro n acc h; omega
  | succ f ih =>
      intro n acc h
      by_cases h10 : n < 10
      · rw [natToDigitsAux, if_pos h10, decimalDigits, if_pos h10]
        rfl
      · have hd : n / 10 < f := by omega
        rw [natToDigitsAux, if_neg h10, ih (n / 10) _ hd]
        conv_rhs => rw [decimalDigits]
        rw [if_neg h10, List.append_assoc]
        rfl

theorem natToDigits_eq_decimalDigits (n : Nat) :
    natToDigits n = decimalDigits n := by
  rw [natToDigits, natToDigitsAux_eq (n + 1) n [] (by omega),
      List.append_nil]

theorem natToDigits_ne_nil (n : Nat) : natToDigits n ≠ [] := by
  rw [natToDigits_eq_decimalDigits, decimalDigits]
  split <;> simp

theorem natToDigits_all_digit (n : Nat) :
    ∀ c ∈ natToDigits n, c.isDigit = true := by
  rw [natToDigits_eq_decimalDigits]
  induction n using Nat.strong_induction_on with
  | _ n ih =>
    rw [decimalDigits]
    split
    · intro c hc
      rw [List.mem_singleton] at hc
      exact hc ▸ decChar_isDigit n ‹n < 10›
    · intro c hc
      rcases List.mem_append.mp hc with hm | hm
      · exact ih (n / 10) (Nat.div_lt_self (by omega) (by omega)) c hm
      · rw [List.mem_singleton] at hm
        exact hm ▸ decChar_isDigit (n % 10) (Nat.mod_lt _ (by omega))

theorem natToDigits_no_colon (n : Nat) : ':' ∉ natToDigits n := by
  intro hm
  have := natToDigits_all_digit n ':' hm
  simp [Char.isDigit] at this

theorem decValue_append_digit (xs : List Char) (c : Char) :
    decValue (xs ++ [c]) = decValue xs * 10 + (c.toNat - 48) := by
  simp [decValue, List.foldl_append]

theorem decValue_natToDigits (n : Nat) : decValue (natToDigits n) = n := by
  rw [natToDigits_eq_decimalDigits]
  induction n using Nat.strong_induction_on with
  | _ n ih =>
    rw [decimalDigits]
    split
    · simp [decValue, decChar_toNat n ‹n < 10›]
    · rw [decValue_append_digit,
          ih (n / 10) (Nat.div_lt_self (by omega) (by omega)),
          decChar_toNat (n % 10) (Nat.mod_lt _ (by omega))]
      omega

theorem natToDigits_head_digit (n : Nat) :
    ∀ rest : List Char, natToDigits n ≠ '+' :: rest := by
  intro rest h
  have : '+' ∈ natToDigits n := h ▸ List.mem_cons_self _ _
  have := natToDigits_all_digit n '+' this
  simp [Char.isDigit] at this

theorem parseU16_natToDigits (n : Nat) (h : n < 65536) :
    parseU16 (natToDigits n) = some n := by
  unfold parseU16
  split
  · exact absurd ‹natToDigits n = '+' :: _› (natToDigits_head_digit n _)
  · rw [if_neg, if_pos, decValue_natToDigits, if_pos h]
    · rw [List.all_eq_true]
      intro c hc
      simpa using natToDigits_all_digit n c hc
    · simp [List.isEmpty_iff, natToDigits_ne_nil n]

/-! ### Claim theorems -/

/-- C1: with the I2P zone enabled, a failing I2P startup is logged and
discarded — `initialize_zones_p2p` still returns with the clearnet
interface present and the I2P interface `none` — while a failing
mandatory clearnet startup makes the call fail (the `.unwrap()` panics)
rather than silently continue. -/
theorem initialize_zones_p2p_zone_failure_policy {CI II TX : Type}
    (clearnetStart : ZoneStartResult (CI × TX))
    (i2pStart : ZoneStartResult (II × TX))
    (clearnet : CI) (tx : TX) (e e' : String)
    (hc : clearnetStart = ZoneStartResult.success (clearnet, tx))
    (hi : i2pStart = ZoneStartResult.failure e) :
    initialize_zones_p2p true clearnetStart i2pStart =
      ZonesP2pOutcome.returned ⟨clearnet, none⟩ [tx] ∧
    initialize_zones_p2p true (ZoneStartResult.failure e' :
        ZoneStartResult (CI × TX)) i2pStart =
      ZonesP2pOutcome.panicked e' := by
  subst hc hi
  exact ⟨rfl, rfl⟩

/-- Witness for C1 at concrete startup outcomes over `Nat` payloads. -/
theorem initialize_zones_p2p_zone_failure_policy_witness :
    @initialize_zones_p2p Nat Nat Nat true
        (ZoneStartResult.success (7, 3)) (ZoneStartResult.failure "boom") =
      ZonesP2pOutcome.returned ⟨7, none⟩ [3] ∧
    @initialize_zones_p2p Nat Nat Nat true
        (ZoneStartResult.failure "crash") (ZoneStartResult.failure "boom") =
      ZonesP2pOutcome.panicked "crash" :=
  initialize_zones_p2p_zone_failure_policy _ _ 7 3 "boom" "crash" rfl rfl

/-- C2 counterexample: parsing the display string of a garlic address
succeeds but yields the fixed `from_str` destination, so the ban id of
the parsed address differs from the original's — the display/parse pair
does not round-trip up to ban identity. -/
theorem garlic_display_parse_breaks_ban_id :
    GarlicAddr.fromStr (GarlicAddr.display ⟨List.replicate 32 1, 80⟩) =
      Except.ok ⟨fromStrFixedDestination, 80⟩ ∧
    GarlicAddr.ban_id ⟨fromStrFixedDestination, 80⟩ ≠
      GarlicAddr.ban_id ⟨List.replicate 32 1, 80⟩ := by
  exact ⟨by decide, by decide⟩

/-- C2 (amended): parsing the exact string produced by display always
succeeds and preserves the port, but the stored destination — and hence
the ban id — is the fixed constant `from_str` derives from an empty
`DefaultHasher`, independent of the original destination. -/
theorem from_str_display_fixed_destination (a : GarlicAddr)
    (h : a.port < 65536) :
    GarlicAddr.fromStr (GarlicAddr.display a) =
      Except.ok ⟨fromStrFixedDestination, a.port⟩ := by
  unfold GarlicAddr.display GarlicAddr.fromStr
  rw [show base64Encode (a.destination.take 8) ++ ['.', '.', '.'] ++
        base64Encode (a.destination.drop 24) ++ [':'] ++ natToDigits a.port =
      (base64Encode (a.destination.take 8) ++ ['.', '.', '.'] ++
        base64Encode (a.destination.drop 24)) ++ ':' :: natToDigits a.port
    from by simp]
  rw [splitLastColon_append _ _ (natToDigits_no_colon a.port)]
  simp [parseU16_natToDigits a.port h, fromStrDestination,
        fromStrFixedDestination]

/-- Witness for the amended C2 at a concrete address. -/
theorem from_str_display_fixed_destination_witness :
    GarlicAddr.fromStr (GarlicAddr.display ⟨List.replicate 32 2, 443⟩) =
      Except.ok ⟨fromStrFixedDestination, 443⟩ :=
  from_str_display_fixed_destination ⟨List.replicate 32 2, 443⟩ (by decide)

/-- C3: the garlic epee builder fails closed — adding any field of any
epee-object type errors, finishing errors, and `finish` never produces
any address, defaulted or otherwise. -/
theorem garlic_builder_fails_closed :
    ∀ (T : Type) (b : GarlicBuilder) (name : String) (t : T),
      GarlicBuilder.add_field T b name t =
        Except.error
          (EpeeError.Format "Garlic address builder not implemented") ∧
      GarlicBuilder.finish b =
        Except.error
          (EpeeError.Format "Garlic address builder not implemented") ∧
      ∀ a : GarlicAddr, GarlicBuilder.finish b ≠ Except.ok a := by
  intro T b name t
  refine ⟨rfl, rfl, fun a h => ?_⟩
  exact Except.noConfusion h

/-- C4: the epee encoding of a garlic address writes exactly the two
fields `destination` (the 32-byte sequence) then `port` (as `u16`), in
that order, and `number_of_fields` is 2. -/
theorem garlic_write_fields_two_ordered (a : GarlicAddr)
    (h : a.destination.length = 32) :
    GarlicAddr.write_fields a =
      Except.ok [("destination", EpeeValue.byteSeq a.destination),
                 ("port", EpeeValue.u16 a.port)] ∧
    a.destination.length = 32 ∧
    GarlicAddr.number_of_fields a = 2 :=
  ⟨rfl, h, rfl⟩

/-- Witness for C4 at a concrete 32-byte address. -/
theorem garlic_write_fields_two_ordered_witness :
    GarlicAddr.write_fields ⟨List.replicate 32 0, 5⟩ =
      Except.ok [("destination", EpeeValue.byteSeq (List.replicate 32 0)),
                 ("port", EpeeValue.u16 5)] ∧
    (⟨List.replicate 32 0, 5⟩ : GarlicAddr).destination.length = 32 ∧
    GarlicAddr.number_of_fields ⟨List.replicate 32 0, 5⟩ = 2 :=
  garlic_write_fields_two_ordered ⟨List.replicate 32 0, 5⟩ (by decide)

/-- C5: both stub operations of the I2P transport return an explicit
not-supported (`NotConnected`) error for every input — neither produces
a stream/sink pair or a listener. -/
theorem i2p_transport_stub_fails_fast :
    ∀ (addr : GarlicAddr) (cc : I2pClientConfig) (sc : I2pServerConfig),
      I2pTransport.connect_to_peer addr cc =
        Except.error ⟨IoErrorKind.NotConnected, i2pNotImplementedMsg⟩ ∧
      I2pTransport.incoming_connection_listener sc =
        Except.error ⟨IoErrorKind.NotConnected, i2pNotImplementedMsg⟩ := by
  intro addr cc sc
  exact ⟨rfl, rfl⟩

/-- C6: the ban id of a garlic address is exactly its destination
digest, and equal addresses yield equal ban keys. -/
theorem garlic_ban_id_is_destination (a b : GarlicAddr) (h : a = b) :
    GarlicAddr.ban_id a = a.destination ∧
    GarlicAddr.ban_id a = GarlicAddr.ban_id b :=
  ⟨rfl, by rw [h]⟩

/-- Witness for C6 at a concrete address. -/
theorem garlic_ban_id_is_destination_witness :
    GarlicAddr.ban_id ⟨List.replicate 32 9, 4⟩ =
      (⟨List.replicate 32 9, 4⟩ : GarlicAddr).destination ∧
    GarlicAddr.ban_id ⟨List.replicate 32 9, 4⟩ =
      GarlicAddr.ban_id ⟨List.replicate 32 9, 4⟩ :=
  garlic_ban_id_is_destination _ _ rfl

/-- C7: `set_port` sets the port and leaves the destination — the only
other field — unchanged. -/
theorem garlic_set_port_frame :
    ∀ (a : GarlicAddr) (p : Nat),
      (a.set_port p).port = p ∧
      (a.set_port p).destination = a.destination := by
  intro a p
  exact ⟨rfl, rfl⟩

/-- C8: the I2P zone's policy constants have the expected fixed values —
node IDs are not checked and the node broadcasts its own address. -/
theorem i2p_zone_policy_constants :
    I2pZonePolicy.CHECK_NODE_ID = false ∧
    I2pZonePolicy.BROADCAST_OWN_ADDR = true :=
  ⟨rfl, rfl⟩

/-- C9: wrapping typed internal peer ids into
`CrossNetworkInternalPeerId` is injective across zones — ids from
different zones never collide into the same union value, equal typed
ids wrap to equal union values, and each per-zone wrap is itself
injective. -/
theorem cross_network_peer_id_injective
    (x x' : InternalPeerID SocketAddr) (y y' : InternalPeerID OnionAddr)
    (z z' : InternalPeerID GarlicAddr)
    (hx : x = x') (hy : y = y') (hz : z = z') :
    crossIdFromClearNet x ≠ crossIdFromTor y ∧
    crossIdFromTor y ≠ crossIdFromI2p z ∧
    crossIdFromClearNet x ≠ crossIdFromI2p z ∧
    crossIdFromClearNet x = crossIdFromClearNet x' ∧
    crossIdFromTor y = crossIdFromTor y' ∧
    crossIdFromI2p z = crossIdFromI2p z' ∧
    (∀ w w' : InternalPeerID SocketAddr,
      crossIdFromClearNet w = crossIdFromClearNet w' → w = w') ∧
    (∀ w w' : InternalPeerID OnionAddr,
      crossIdFromTor w = crossIdFromTor w' → w = w') ∧
    (∀ w w' : InternalPeerID GarlicAddr,
      crossIdFromI2p w = crossIdFromI2p w' → w = w') := by
  subst hx hy hz
  refine ⟨fun h => ?_, fun h => ?_, fun h => ?_, rfl, rfl, rfl,
          fun w w' h => ?_, fun w w' h => ?_, fun w w' h => ?_⟩ <;>
    simp only [crossIdFromClearNet, crossIdFromTor, crossIdFromI2p,
               CrossNetworkInternalPeerId.ClearNet.injEq,
               CrossNetworkInternalPeerId.Tor.injEq,
               CrossNetworkInternalPeerId.I2p.injEq,
               reduceCtorEq] at h <;>
    exact h

/-- Witness for C9 at concrete per-zone peer ids. -/
theorem cross_network_peer_id_injective_witness :
    crossIdFromClearNet ⟨none, 0⟩ ≠ crossIdFromTor ⟨none, 0⟩ ∧
    crossIdFromTor ⟨none, 0⟩ ≠ crossIdFromI2p ⟨none, 0⟩ ∧
    crossIdFromClearNet ⟨none, 0⟩ ≠ crossIdFromI2p ⟨none, 0⟩ ∧
    crossIdFromClearNet ⟨none, 0⟩ = crossIdFromClearNet ⟨none, 0⟩ ∧
    crossIdFromTor ⟨none, 0⟩ = crossIdFromTor ⟨none, 0⟩ ∧
    crossIdFromI2p ⟨none, 0⟩ = crossIdFromI2p ⟨none, 0⟩ ∧
    (∀ w w' : InternalPeerID SocketAddr,
      crossIdFromClearNet w = crossIdFromClearNet w' → w = w') ∧
    (∀ w w' : InternalPeerID OnionAddr,
      crossIdFromTor w = crossIdFromTor w' → w = w') ∧
    (∀ w w' : InternalPeerID GarlicAddr,
      crossIdFromI2p w = crossIdFromI2p w' → w = w') :=
  cross_network_peer_id_injective ⟨none, 0⟩ ⟨none, 0⟩ ⟨none, 0⟩ ⟨none, 0⟩
    ⟨none, 0⟩ ⟨none, 0⟩ rfl rfl rfl

/-- C10: any two successfully parsed garlic address strings with the
same port value parse to the same address — the destination text has no
influence, the stored destination is the fixed constant whose bytes
8..32 are all zero. -/
theorem from_str_ignores_destination_text (s1 s2 : List Char)
    (a1 a2 : GarlicAddr)
    (h1 : GarlicAddr.fromStr s1 = Except.ok a1)
    (h2 : GarlicAddr.fromStr s2 = Except.ok a2)
    (hp : a1.port = a2.port) :
    a1 = a2 ∧ a1.destination = fromStrFixedDestination ∧
      a1.destination.drop 8 = List.replicate 24 0 := by
  unfold GarlicAddr.fromStr at h1 h2
  split at h1
  · exact absurd h1 (by simp)
  split at h1
  · exact absurd h1 (by simp)
  split at h2
  · exact absurd h2 (by simp)
  split at h2
  · exact absurd h2 (by simp)
  rw [Except.ok.injEq] at h1 h2
  subst h1
  subst h2
  refine ⟨?_, rfl, ?_⟩
  · rw [GarlicAddr.mk.injEq]
    exact ⟨rfl, hp⟩
  · show (fromStrFixedDestination).drop 8 = List.replicate 24 0
    decide

/-- Witness for C10 at two concrete strings with different destination
texts and the same port. -/
theorem from_str_ignores_destination_text_witness :
    (⟨fromStrFixedDestination, 80⟩ : GarlicAddr) =
      ⟨fromStrFixedDestination, 80⟩ ∧
    (⟨fromStrFixedDestination, 80⟩ : GarlicAddr).destination =
      fromStrFixedDestination ∧
    (⟨fromStrFixedDestination, 80⟩ : GarlicAddr).destination.drop 8 =
      List.replicate 24 0 :=
  from_str_ignores_destination_text ['a', ':', '8', '0']
    ['b', 'c', ':', '8', '0'] ⟨fromStrFixedDestination, 80⟩
    ⟨fromStrFixedDestination, 80⟩ (by decide) (by decide) rfl

end Cuprate
